import Mathlib

/-!
Shallow embedding of the authorization/claims core of the multi-tenant CRM
repository: the header-based claims resolver and RBAC helpers
(lib/auth utilities), the client-side route guard (protected-route),
the permissions API route, the session resolver (session.ts), and the
tenant-scoped user service (baseService/userService).

JavaScript truthiness on strings matters throughout (an absent header and an
empty-string header are both falsy), so optional strings are `Option String`
and falsiness is tested explicitly.
-/

namespace CRM

/-- Truthiness of a nullable string as JavaScript sees it: `null`/absent and
the empty string are falsy. -/
def strFalsy : Option String → Bool
  | none => true
  | some s => s == ""

/-- Request headers read by the claims resolver (set by the middleware). -/
structure Headers where
  xUserId : Option String
  xUserRole : Option String
  xOrganizationId : Option String
deriving Repr, DecidableEq

/-- Resolved header user: id, role and organizationId, all plain strings. -/
structure HeaderUser where
  id : String
  role : String
  organizationId : String
deriving Repr, DecidableEq

/-- Embedding of getCurrentUserFromHeaders: reads the three x- headers and
returns null when any is absent or empty (JS falsy check). -/
def getCurrentUserFromHeaders (h : Headers) : Option HeaderUser :=
  if strFalsy h.xUserId || strFalsy h.xUserRole || strFalsy h.xOrganizationId then
    none
  else
    some { id := h.xUserId.getD "", role := h.xUserRole.getD "",
           organizationId := h.xOrganizationId.getD "" }

/-- Embedding of the roleHierarchy record: indexing the JS record with an
unknown role string yields undefined, modelled as none. -/
def roleHierarchy (r : String) : Option Nat :=
  if r == "SUPER_ADMIN" then some 4
  else if r == "OWNER" then some 3
  else if r == "ADMIN" then some 2
  else if r == "USER" then some 1
  else none

/-- JavaScript numeric comparison a >= b on possibly-undefined operands:
any comparison with undefined is false. -/
def jsGe : Option Nat → Option Nat → Bool
  | some a, some b => decide (b ≤ a)
  | _, _ => false

/-- Embedding of hasRole: resolves the user from headers, then compares the
hierarchy ranks of the user role and the required role. -/
def hasRole (h : Headers) (requiredRole : String) : Bool :=
  match getCurrentUserFromHeaders h with
  | none => false
  | some user => jsGe (roleHierarchy user.role) (roleHierarchy requiredRole)

/-- Embedding of isSuperAdmin. -/
def isSuperAdmin (h : Headers) : Bool :=
  hasRole h "SUPER_ADMIN"

/-- Embedding of isAdmin: enumerated role list. -/
def isAdmin (h : Headers) : Bool :=
  match getCurrentUserFromHeaders h with
  | none => false
  | some user =>
      user.role == "SUPER_ADMIN" || user.role == "ADMIN" || user.role == "OWNER"

/-- Embedding of isOwner: enumerated role list. -/
def isOwner (h : Headers) : Bool :=
  match getCurrentUserFromHeaders h with
  | none => false
  | some user => user.role == "OWNER" || user.role == "SUPER_ADMIN"

/-- Embedding of isUser: enumerated role list. -/
def isUser (h : Headers) : Bool :=
  match getCurrentUserFromHeaders h with
  | none => false
  | some user =>
      user.role == "USER" || user.role == "SUPER_ADMIN" || user.role == "ADMIN" ||
        user.role == "OWNER"

/-- Embedding of isInOrganization: strict equality of organization ids, with
no role-based exemption. -/
def isInOrganization (h : Headers) (organizationId : String) : Bool :=
  match getCurrentUserFromHeaders h with
  | none => false
  | some user => user.organizationId == organizationId

/-- Embedding of canAccessResource: SUPER_ADMIN may access any resource,
everyone else only resources of their own organization. -/
def canAccessResource (h : Headers) (resourceOrgId : String) : Bool :=
  match getCurrentUserFromHeaders h with
  | none => false
  | some user =>
      if user.role == "SUPER_ADMIN" then true
      else user.organizationId == resourceOrgId

/-- Embedding of rbacGuard: role check first, then — only when the optional
organizationId argument is truthy — the canAccessResource check. -/
def rbacGuard (h : Headers) (requiredRole : String) (organizationId : Option String) : Bool :=
  if !(hasRole h requiredRole) then false
  else if strFalsy organizationId then true
  else canAccessResource h (organizationId.getD "")

/-- Outcome of the redirecting request-gate helpers. -/
inductive GateResult where
  | ok
  | redirectLogin
  | redirectUnauthorized
deriving Repr, DecidableEq

/-- Embedding of requireOrganization: requireAuth (redirect to login when no
user resolves), then isInOrganization (redirect to the unauthorized view on
failure). -/
def requireOrganization (h : Headers) (organizationId : String) : GateResult :=
  match getCurrentUserFromHeaders h with
  | none => GateResult.redirectLogin
  | some _ =>
      if isInOrganization h organizationId then GateResult.ok
      else GateResult.redirectUnauthorized

/-- Embedding of requireRole: requireAuth, then rbacGuard. -/
def requireRole (h : Headers) (requiredRole : String) (organizationId : Option String) :
    GateResult :=
  match getCurrentUserFromHeaders h with
  | none => GateResult.redirectLogin
  | some _ =>
      if rbacGuard h requiredRole organizationId then GateResult.ok
      else GateResult.redirectUnauthorized

/-- Client-side auth-context user as consumed by the protected-route guard. -/
structure AuthUser where
  role : String
  organizationId : String
deriving Repr, DecidableEq

/-- Embedding of checkPermissions from protected-route: nullable user, role
hierarchy comparison, then a strict organization equality check applied
whenever the organizationId argument is truthy — with no SUPER_ADMIN
exemption. -/
def checkPermissions (user : Option AuthUser) (requiredRole : String)
    (organizationId : Option String) : Bool :=
  match user with
  | none => false
  | some u =>
      if !(jsGe (roleHierarchy u.role) (roleHierarchy requiredRole)) then false
      else if !(strFalsy organizationId) && !(u.organizationId == organizationId.getD "") then
        false
      else true

/-- Embedding of checkRole from the permissions API route. -/
def checkRole (userRole requiredRole : String) : Bool :=
  jsGe (roleHierarchy userRole) (roleHierarchy requiredRole)

/-- Body of the permissions API's 200 response. -/
structure PermissionsResult where
  hasAccess : Bool
  hasRequiredRole : Bool
  hasOrganizationAccess : Bool
deriving Repr, DecidableEq

/-- Embedding of the permissions API GET handler: none is the 401 response for
an unresolvable user; otherwise the role and organization checks, each
defaulting to true when its query parameter is falsy. The organization check
is strict equality with no SUPER_ADMIN exemption. -/
def permissionsGET (h : Headers) (roleParam : Option String) (orgParam : Option String) :
    Option PermissionsResult :=
  match getCurrentUserFromHeaders h with
  | none => none
  | some user =>
      let hasRequiredRole :=
        if strFalsy roleParam then true else checkRole user.role (roleParam.getD "")
      let hasOrganizationAccess :=
        if strFalsy orgParam then true else user.organizationId == orgParam.getD ""
      some { hasAccess := hasRequiredRole && hasOrganizationAccess,
             hasRequiredRole := hasRequiredRole,
             hasOrganizationAccess := hasOrganizationAccess }

/-- User object carried by an external auth() session: the better-auth default
schema guarantees an id but neither a role nor an organizationId, so those
fields are optional. -/
structure ExtUser where
  id : String
  role : Option String
  organizationId : Option String
deriving Repr, DecidableEq

/-- Session object as returned by the external auth() call; the user field is
nullable (the code tests session?.user). -/
structure ExtSession where
  user : Option ExtUser
deriving Repr, DecidableEq

/-- Result of the awaited auth() identity-store read: a thrown error, no
session, or a session. -/
abbrev AuthReadResult := Except String (Option ExtSession)

/-- Fallback branch of getAuth: the value of the expression
session?.user ? session : null applied to the awaited auth() result, with the
enclosing catch mapping a thrown error to null. -/
def authFallback : AuthReadResult → Option ExtSession
  | Except.ok (some s) =>
      match s.user with
      | some _ => some s
      | none => none
  | Except.ok none => none
  | Except.error _ => none

/-- Equivalent of the header-presence condition in getAuth: all three x-
headers are truthy. -/
def hasHeaderEvidence (h : Headers) : Bool :=
  !(strFalsy h.xUserId) && !(strFalsy h.xUserRole) && !(strFalsy h.xOrganizationId)

/-- Embedding of getAuth from session.ts: builds a session from the three x-
headers when all are truthy; otherwise falls back to the awaited auth() call,
returning the session when it has a user. The surrounding try/catch turns any
thrown error into null. -/
def getAuth (h : Headers) (authRes : AuthReadResult) : Option ExtSession :=
  if hasHeaderEvidence h then
    some { user := some { id := h.xUserId.getD "",
                          role := some (h.xUserRole.getD ""),
                          organizationId := some (h.xOrganizationId.getD "") } }
  else
    authFallback authRes

/-- Database row for a user as the service layer sees it. -/
structure DbUser where
  id : String
  email : String
  organizationId : String
  name : Option String
  role : String
  deletedAt : Option Nat
deriving Repr, DecidableEq

/-- The user table: the state prisma queries run against. -/
abbrev Db := List DbUser

/-- Per-request service context (caller identity and organization). -/
structure ServiceContext where
  userId : String
  organizationId : String
deriving Repr, DecidableEq

namespace UserService

/-- Embedding of BaseService.validateOwnership for the user model: a
findFirst on id plus organizationId, true when a record is found. -/
def validateOwnership (db : Db) (id organizationId : String) : Bool :=
  (db.find? (fun r => r.id == id && r.organizationId == organizationId)).isSome

/-- Embedding of UserService.findById: ownership validation first, then a
findFirst scoped to the context organization. -/
def findById (ctx : ServiceContext) (db : Db) (id : String) : Option DbUser :=
  if validateOwnership db id ctx.organizationId then
    db.find? (fun r => r.id == id && r.organizationId == ctx.organizationId)
  else none

/-- Update payload: optional name and role, only provided fields change. -/
structure UserUpdateInput where
  name : Option String
  role : Option String
deriving Repr, DecidableEq

/-- Application of a prisma update payload to a row. -/
def applyUpdate (r : DbUser) (d : UserUpdateInput) : DbUser :=
  { r with
    name := match d.name with | some n => some n | none => r.name,
    role := d.role.getD r.role }

/-- Embedding of UserService.update: throws when ownership validation fails,
otherwise updates the row with the matching id. -/
def update (ctx : ServiceContext) (db : Db) (id : String) (d : UserUpdateInput) :
    Except String Db :=
  if validateOwnership db id ctx.organizationId then
    Except.ok (db.map (fun r => if r.id == id then applyUpdate r d else r))
  else Except.error "User does not belong to your organization"

/-- Embedding of UserService.delete: throws when ownership validation fails,
otherwise soft-deletes by stamping deletedAt. -/
def delete (ctx : ServiceContext) (db : Db) (id : String) (now : Nat) :
    Except String Db :=
  if validateOwnership db id ctx.organizationId then
    Except.ok (db.map (fun r => if r.id == id then { r with deletedAt := some now } else r))
  else Except.error "User does not belong to your organization"

/-- Embedding of UserService.findByEmail: a findUnique on the email column
alone, with no organization filter. -/
def findByEmail (db : Db) (email : String) : Option DbUser :=
  db.find? (fun r => r.email == email)

/-- Embedding of UserService.getUsersForOrganization: findMany filtered by the
supplied organization id and deletedAt null. -/
def getUsersForOrganization (db : Db) (organizationId : String) : List DbUser :=
  db.filter (fun r => r.organizationId == organizationId && r.deletedAt == none)

end UserService

/-- Scope qualifier of a capability token. -/
inductive PermScope where
  | unscoped
  | all
  | own
  | assigned
  | member
deriving Repr, DecidableEq

/-- Capability token entity:action[:scope]. -/
structure Permission where
  entity : String
  action : String
  scope : PermScope
deriving Repr, DecidableEq

/-- Resolved principal for one request. -/
structure Principal where
  userId : String
  organizationId : String
  role : String
  accountIds : List String
deriving Repr, DecidableEq

/-- Pre-fetched facts about the target resource used by scope resolution. -/
structure ScopeFacts where
  resourceOwnerRef : Option String
  assignedUserId : Option String
  isRecordedMember : Bool
deriving Repr, DecidableEq

/-- Modelled from the spec: satisfaction of a scope proof (Permission
Evaluator algorithm step 3) — own requires the resource owner ref to be in
the principal's accountIds, assigned requires the resource's assigned user to
be the principal, member requires a recorded membership; a missing proof is
unsatisfied. No scoped-permission evaluator exists under src/, so this
follows the spec's words. -/
def scopeSatisfied (p : Principal) (s : PermScope) (facts : ScopeFacts) : Bool :=
  match s with
  | PermScope.unscoped => true
  | PermScope.all => true
  | PermScope.own =>
      match facts.resourceOwnerRef with
      | some ref => p.accountIds.contains ref
      | none => false
  | PermScope.assigned =>
      match facts.assignedUserId with
      | some uid => uid == p.userId
      | none => false
  | PermScope.member => facts.isRecordedMember

/-- Modelled from the spec: the Permission Evaluator (4.2) over a
RolePermissionTable — the mandatory organization check (step 4, SUPER_ADMIN
exempt), the unconditional allow on an unscoped or all variant (step 2), and
otherwise a scoped variant whose scope proof must be satisfied (steps 1/3).
No scoped-permission evaluator exists under src/, so this follows the spec's
words. -/
def evaluatePermission (table : String → List Permission) (p : Principal)
    (perm : Permission) (resourceOrgId : Option String) (facts : ScopeFacts) : Bool :=
  let perms := table p.role
  let orgOk :=
    match resourceOrgId with
    | some o => p.role == "SUPER_ADMIN" || p.organizationId == o
    | none => true
  if !orgOk then false
  else if perms.any (fun q =>
      q.entity == perm.entity && q.action == perm.action &&
        (q.scope == PermScope.unscoped || q.scope == PermScope.all)) then true
  else perms.any (fun q =>
      q.entity == perm.entity && q.action == perm.action && scopeSatisfied p q.scope facts)

end CRM

open CRM

/-- Claim C1 fails as stated: an empty-string organization id is a supplied id
that differs from the principal's organization, yet all three entry points
allow, because the JS truthiness test skips the organization check for the
empty string. Principal: role OWNER, organization orgB; supplied id: the
empty string. -/
theorem c1_counterexample :
    rbacGuard ⟨some "u1", some "OWNER", some "orgB"⟩ "USER" (some "") = true ∧
    checkPermissions (some ⟨"OWNER", "orgB"⟩) "USER" (some "") = true ∧
    permissionsGET ⟨some "u1", some "OWNER", some "orgB"⟩ (some "USER") (some "") =
      some ⟨true, true, true⟩ ∧
    "orgB" ≠ "" ∧ "OWNER" ≠ "SUPER_ADMIN" := by
  decide

/-- Claim C1 (amended): tenant isolation is absolute for non-super-admins for
every supplied non-empty resource organization id — for every principal whose
organization differs from the supplied non-empty id and whose role is not
SUPER_ADMIN, rbacGuard, checkPermissions and the permissions API organization
check all deny, regardless of role rank and of the required role. -/
theorem c1_tenant_isolation (h : Headers) (u : HeaderUser) (q o : String)
    (hu : getCurrentUserFromHeaders h = some u)
    (hne : o ≠ "") (horg : u.organizationId ≠ o) (hrole : u.role ≠ "SUPER_ADMIN") :
    rbacGuard h q (some o) = false ∧
    checkPermissions (some ⟨u.role, u.organizationId⟩) q (some o) = false ∧
    ∀ rp r, permissionsGET h rp (some o) = some r →
      r.hasOrganizationAccess = false ∧ r.hasAccess = false := by
  refine ⟨?_, ?_, ?_⟩
  · unfold rbacGuard
    cases hr : hasRole h q with
    | false => simp
    | true =>
        simp only [hr, Bool.not_true, Bool.false_eq_true, if_false]
        simp only [strFalsy, canAccessResource, hu, Option.getD_some]
        simp [hne, horg, hrole]
  · unfold checkPermissions
    cases hr : jsGe (roleHierarchy u.role) (roleHierarchy q) with
    | false => simp [hr]
    | true =>
        simp only [hr, Bool.not_true, Bool.false_eq_true, if_false]
        simp only [strFalsy, Option.getD_some]
        simp [hne, horg]
  · intro rp r hres
    unfold permissionsGET at hres
    rw [hu] at hres
    have ho : (o == "") = false := by simp [hne]
    have hfalse : (u.organizationId == o) = false := by simp [horg]
    simp only [strFalsy, Option.getD_some, ho, hfalse] at hres
    cases hres
    constructor
    · simp
    · simp

/-- Claim C2 as a record of the divergence: a SUPER_ADMIN principal in orgB
checked against orgA is allowed by canAccessResource and rbacGuard (the
explicit SUPER_ADMIN exemption) but denied by checkPermissions and by the
permissions API organization check, which compare organization ids with no
role exemption. -/
theorem c2_super_admin_divergence :
    canAccessResource ⟨some "u1", some "SUPER_ADMIN", some "orgB"⟩ "orgA" = true ∧
    rbacGuard ⟨some "u1", some "SUPER_ADMIN", some "orgB"⟩ "USER" (some "orgA") = true ∧
    checkPermissions (some ⟨"SUPER_ADMIN", "orgB"⟩) "USER" (some "orgA") = false ∧
    permissionsGET ⟨some "u1", some "SUPER_ADMIN", some "orgB"⟩ none (some "orgA") =
      some ⟨false, true, false⟩ := by
  decide

/-- Claim C3 fails as stated: requireOrganization redirects an authenticated
SUPER_ADMIN of orgB to the unauthorized view when called with orgA, because
isInOrganization compares organization ids strictly with no SUPER_ADMIN
exemption. -/
theorem c3_counterexample :
    requireOrganization ⟨some "u1", some "SUPER_ADMIN", some "orgB"⟩ "orgA" =
      GateResult.redirectUnauthorized := by
  decide

/-- Claim C3 (amended): requireOrganization enforces the strict organization
equality check isInOrganization with no SUPER_ADMIN exemption — for every
authenticated principal it succeeds exactly when the principal's organization
id equals the argument, and otherwise redirects to the unauthorized view. -/
theorem c3_requireOrganization_strict (h : Headers) (u : HeaderUser) (o : String)
    (hu : getCurrentUserFromHeaders h = some u) :
    (requireOrganization h o = GateResult.ok ↔ u.organizationId = o) ∧
    (u.organizationId ≠ o → requireOrganization h o = GateResult.redirectUnauthorized) := by
  unfold requireOrganization isInOrganization
  rw [hu]
  by_cases heq : u.organizationId = o
  · simp [heq]
  · simp [heq]

/-- Witness for the amended claim C3 at a concrete input: an ADMIN of orgA
passes requireOrganization for orgA. -/
theorem c3_requireOrganization_strict_witness :
    requireOrganization ⟨some "u1", some "ADMIN", some "orgA"⟩ "orgA" = GateResult.ok :=
  (c3_requireOrganization_strict ⟨some "u1", some "ADMIN", some "orgA"⟩
    ⟨"u1", "ADMIN", "orgA"⟩ "orgA" (by decide)).1.mpr rfl

/-- Witness for the amended claim C1 at a concrete input: an ADMIN of orgB is
denied by rbacGuard and checkPermissions for the non-empty organization id
orgA. -/
theorem c1_tenant_isolation_witness :
    rbacGuard ⟨some "u1", some "ADMIN", some "orgB"⟩ "USER" (some "orgA") = false ∧
    checkPermissions (some ⟨"ADMIN", "orgB"⟩) "USER" (some "orgA") = false :=
  have t := c1_tenant_isolation ⟨some "u1", some "ADMIN", some "orgB"⟩
    ⟨"u1", "ADMIN", "orgB"⟩ "USER" "orgA" (by decide) (by decide) (by decide) (by decide)
  ⟨t.1, t.2.1⟩

/-- Monotonicity of the JS >= check in its left rank. -/
theorem jsGe_mono {a b : Nat} {x : Option Nat} (hab : a ≤ b) :
    jsGe (some a) x = true → jsGe (some b) x = true := by
  cases x with
  | none => simp [jsGe]
  | some c => simp only [jsGe, decide_eq_true_eq]; omega

/-- Role strings with a hierarchy rank are non-empty. -/
theorem roleHierarchy_ne_empty {r : String} {a : Nat} (h : roleHierarchy r = some a) :
    r ≠ "" := by
  intro he
  rw [he] at h
  have hn : roleHierarchy "" = none := by decide
  rw [hn] at h
  cases h

/-- Resolution of a fully-populated, non-empty header triple. -/
theorem getCurrentUser_some (uid r org : String) (huid : uid ≠ "") (hr : r ≠ "")
    (horg : org ≠ "") :
    getCurrentUserFromHeaders ⟨some uid, some r, some org⟩ = some ⟨uid, r, org⟩ := by
  unfold getCurrentUserFromHeaders
  simp [strFalsy, huid, hr, horg]

/-- Claim C5: the role checks are monotone in the hierarchy rank — whenever a
required role is granted to a principal of rank a, it is granted to a
principal of rank b ≥ a, for hasRole, checkRole and checkPermissions alike. -/
theorem c5_role_monotonicity (r1 r2 q uid org : String) (a b : Nat)
    (h1 : roleHierarchy r1 = some a) (h2 : roleHierarchy r2 = some b) (hab : a ≤ b)
    (huid : uid ≠ "") (horg : org ≠ "") :
    (hasRole ⟨some uid, some r1, some org⟩ q = true →
      hasRole ⟨some uid, some r2, some org⟩ q = true) ∧
    (checkRole r1 q = true → checkRole r2 q = true) ∧
    ∀ oid ou, checkPermissions (some ⟨r1, ou⟩) q oid = true →
      checkPermissions (some ⟨r2, ou⟩) q oid = true := by
  have hkey : jsGe (roleHierarchy r1) (roleHierarchy q) = true →
      jsGe (roleHierarchy r2) (roleHierarchy q) = true := by
    rw [h1, h2]
    exact jsGe_mono hab
  have hr1 := roleHierarchy_ne_empty h1
  have hr2 := roleHierarchy_ne_empty h2
  refine ⟨?_, ?_, ?_⟩
  · intro hg
    simp only [hasRole, getCurrentUser_some uid r1 org huid hr1 horg] at hg
    simp only [hasRole, getCurrentUser_some uid r2 org huid hr2 horg]
    exact hkey hg
  · intro hg
    unfold checkRole at hg ⊢
    exact hkey hg
  · intro oid ou hcp
    simp only [checkPermissions] at hcp ⊢
    cases hg : jsGe (roleHierarchy r1) (roleHierarchy q) with
    | false => rw [hg] at hcp; simp at hcp
    | true =>
        rw [hg] at hcp
        rw [hkey hg]
        simpa using hcp

/-- Witness for claim C5 at a concrete input: USER is granted the required
role USER, hence so is the higher-ranked OWNER, for all three checks. -/
theorem c5_role_monotonicity_witness :
    hasRole ⟨some "u1", some "OWNER", some "orgA"⟩ "USER" = true ∧
    checkRole "OWNER" "USER" = true ∧
    checkPermissions (some ⟨"OWNER", "orgA"⟩) "USER" (some "orgA") = true :=
  have t := c5_role_monotonicity "USER" "OWNER" "USER" "u1" "orgA" 1 3
    (by decide) (by decide) (by decide) (by decide) (by decide)
  ⟨t.1 (by decide), t.2.1 (by decide), t.2.2 (some "orgA") "orgA" (by decide)⟩

/-- Agreement of the rank comparison against ADMIN with the enumerated list
used by isAdmin. -/
theorem rank_ge_admin (s : String) :
    jsGe (roleHierarchy s) (roleHierarchy "ADMIN") =
      (s == "SUPER_ADMIN" || s == "ADMIN" || s == "OWNER") := by
  unfold roleHierarchy jsGe
  by_cases h1 : s = "SUPER_ADMIN" <;> by_cases h2 : s = "OWNER" <;>
    by_cases h3 : s = "ADMIN" <;> by_cases h4 : s = "USER" <;>
    simp_all

/-- Agreement of the rank comparison against OWNER with the enumerated list
used by isOwner. -/
theorem rank_ge_owner (s : String) :
    jsGe (roleHierarchy s) (roleHierarchy "OWNER") =
      (s == "OWNER" || s == "SUPER_ADMIN") := by
  unfold roleHierarchy jsGe
  by_cases h1 : s = "SUPER_ADMIN" <;> by_cases h2 : s = "OWNER" <;>
    by_cases h3 : s = "ADMIN" <;> by_cases h4 : s = "USER" <;>
    simp_all

/-- Agreement of the rank comparison against USER with the enumerated list
used by isUser. -/
theorem rank_ge_user (s : String) :
    jsGe (roleHierarchy s) (roleHierarchy "USER") =
      (s == "USER" || s == "SUPER_ADMIN" || s == "ADMIN" || s == "OWNER") := by
  unfold roleHierarchy jsGe
  by_cases h1 : s = "SUPER_ADMIN" <;> by_cases h2 : s = "OWNER" <;>
    by_cases h3 : s = "ADMIN" <;> by_cases h4 : s = "USER" <;>
    simp_all

/-- Claim C10: the enumeration-based role predicates agree with the numeric
hierarchy check on every header state — isAdmin with hasRole ADMIN, isOwner
with hasRole OWNER, isUser with hasRole USER, each returning false for an
unresolved user or an unknown role string. -/
theorem c10_enumerated_eq_rank (h : Headers) :
    isAdmin h = hasRole h "ADMIN" ∧ isOwner h = hasRole h "OWNER" ∧
    isUser h = hasRole h "USER" := by
  cases hu : getCurrentUserFromHeaders h with
  | none => simp [isAdmin, isOwner, isUser, hasRole, hu]
  | some u => simp [isAdmin, isOwner, isUser, hasRole, hu, rank_ge_admin,
      rank_ge_owner, rank_ge_user]

/-- Claim C6 fails as stated: the resolver does not return null when the
referenced organization no longer exists. getAuth consults no organization
store at all — its only inputs are the headers and the auth() result — so a
fallback session whose user references the vanished organization orgGone is
returned as-is, not as null. (Contrast with the absent-session and thrown
cases, which do resolve to null.) -/
theorem c6_counterexample :
    getAuth ⟨none, none, none⟩
        (Except.ok (some ⟨some ⟨"u7", some "OWNER", some "orgGone"⟩⟩)) =
      some ⟨some ⟨"u7", some "OWNER", some "orgGone"⟩⟩ ∧
    (some ⟨some ⟨"u7", some "OWNER", some "orgGone"⟩⟩ : Option ExtSession) ≠ none := by
  decide

/-- Claim C6 (amended): the resolver is total and never throws, and returns
null in the failure cases it can observe — no header evidence together with a
thrown identity read, an absent session (which is how a deleted user
manifests), or a session without a user; the header variant also resolves to
null. Existence of the referenced organization is never checked: every
fallback session with a user is returned unchanged. -/
theorem c6_resolver_failure_cases (h : Headers)
    (hev : hasHeaderEvidence h = false) :
    (∀ e, getAuth h (Except.error e) = none) ∧
    getAuth h (Except.ok none) = none ∧
    (∀ s : ExtSession, s.user = none → getAuth h (Except.ok (some s)) = none) ∧
    getCurrentUserFromHeaders h = none ∧
    (∀ (s : ExtSession) (u : ExtUser), s.user = some u →
      getAuth h (Except.ok (some s)) = some s) := by
  have hg : ∀ res, getAuth h res = authFallback res := by
    intro res
    unfold getAuth
    rw [hev]
    simp
  refine ⟨?_, ?_, ?_, ?_, ?_⟩
  · intro e
    rw [hg]
    rfl
  · rw [hg]
    rfl
  · intro s hs
    rw [hg]
    simp only [authFallback]
    rw [hs]
  · cases hA : strFalsy h.xUserId <;> cases hB : strFalsy h.xUserRole <;>
      cases hC : strFalsy h.xOrganizationId <;>
      simp_all [getCurrentUserFromHeaders, hasHeaderEvidence]
  · intro s u hs
    rw [hg]
    simp only [authFallback]
    rw [hs]

/-- Witness for the amended claim C6 at a concrete input: with no headers, an
erroring identity read and an empty read both resolve to null, the header
variant resolves to null, and a fallback session with a user passes through
unchanged. -/
theorem c6_resolver_failure_cases_witness :
    getAuth ⟨none, none, none⟩ (Except.error "identity store down") = none ∧
    getAuth ⟨none, none, none⟩ (Except.ok none) = none ∧
    getCurrentUserFromHeaders ⟨none, none, none⟩ = none ∧
    getAuth ⟨none, none, none⟩ (Except.ok (some ⟨some ⟨"u2", some "USER", some "orgA"⟩⟩)) =
      some ⟨some ⟨"u2", some "USER", some "orgA"⟩⟩ :=
  have t := c6_resolver_failure_cases ⟨none, none, none⟩ (by decide)
  ⟨t.1 "identity store down", t.2.1, t.2.2.2.1,
    t.2.2.2.2 ⟨some ⟨"u2", some "USER", some "orgA"⟩⟩ ⟨"u2", some "USER", some "orgA"⟩ rfl⟩

/-- Claim C7 fails as stated: an erroring identity-store read and an absent
session produce the very same observable outcome null — getAuth catches the
error and returns null, so a backend fault is indistinguishable from not
being logged in. -/
theorem c7_counterexample :
    getAuth ⟨none, none, none⟩ (Except.error "identity store unreachable") =
      getAuth ⟨none, none, none⟩ (Except.ok none) ∧
    getAuth ⟨none, none, none⟩ (Except.error "identity store unreachable") = none := by
  decide

/-- Claim C7 (amended): when the identity read throws, getAuth catches the
error, logs it, and returns null — the same observable result as an absent
session; no distinguishable IdentityLookupFailure outcome is surfaced to the
caller. -/
theorem c7_error_collapsed_to_none (h : Headers) (e : String)
    (hev : hasHeaderEvidence h = false) :
    getAuth h (Except.error e) = none ∧
    getAuth h (Except.error e) = getAuth h (Except.ok none) := by
  unfold getAuth
  rw [hev]
  simp [authFallback]

/-- Witness for the amended claim C7 at a concrete input. -/
theorem c7_error_collapsed_to_none_witness :
    getAuth ⟨none, none, none⟩ (Except.error "network fault") = none ∧
    getAuth ⟨none, none, none⟩ (Except.error "network fault") =
      getAuth ⟨none, none, none⟩ (Except.ok none) :=
  c7_error_collapsed_to_none ⟨none, none, none⟩ "network fault" (by decide)

/-- Claim C8 fails as stated: headers carrying a user id and role but no
organization id make getAuth fall back to the auth() read, and a fallback
session whose user has no organization id is returned as-is — a principal
without an organization, not null. -/
theorem c8_counterexample :
    getAuth ⟨some "u1", some "USER", none⟩
        (Except.ok (some ⟨some ⟨"u9", some "ADMIN", none⟩⟩)) =
      some ⟨some ⟨"u9", some "ADMIN", none⟩⟩ ∧
    (some ⟨some ⟨"u9", some "ADMIN", none⟩⟩ : Option ExtSession) ≠ none := by
  decide

/-- Claim C8 (amended): the header variant returns null whenever the
organization header is absent or empty, and in that case getAuth never builds
a principal from headers — it returns exactly what the auth() fallback
yields, with no organization check applied to the fallback session. -/
theorem c8_no_org_header_unresolved (h : Headers)
    (hno : strFalsy h.xOrganizationId = true) :
    getCurrentUserFromHeaders h = none ∧
    ∀ res, getAuth h res = authFallback res := by
  constructor
  · unfold getCurrentUserFromHeaders
    rw [hno]
    simp
  · intro res
    have hev : hasHeaderEvidence h = false := by
      unfold hasHeaderEvidence
      rw [hno]
      simp
    unfold getAuth
    rw [hev]
    simp

/-- Witness for the amended claim C8 at a concrete input. -/
theorem c8_no_org_header_unresolved_witness :
    getCurrentUserFromHeaders ⟨some "u1", some "USER", none⟩ = none ∧
    getAuth ⟨some "u1", some "USER", none⟩ (Except.ok none) =
      authFallback (Except.ok none) :=
  have t := c8_no_org_header_unresolved ⟨some "u1", some "USER", none⟩ (by decide)
  ⟨t.1, t.2 (Except.ok none)⟩

/-- Claim C4 fails as stated: findByEmail looks a user up by email alone with
no organization filter, so a service context scoped to orgB still reads the
orgA record — a read path that executes against a resource of a different
organization. -/
theorem c4_counterexample :
    UserService.findByEmail [⟨"u1", "alice@example.com", "orgA", none, "USER", none⟩]
        "alice@example.com" =
      some ⟨"u1", "alice@example.com", "orgA", none, "USER", none⟩ ∧
    ({ userId := "caller", organizationId := "orgB" } : ServiceContext).organizationId ≠
      "orgA" := by
  decide

/-- Claim C4 (amended): the ownership-validated operations are tenant-scoped —
when no record with the requested id belongs to the context's organization,
findById returns null and update and delete throw before mutating; findByEmail
is excluded, being an unscoped lookup by email alone. -/
theorem c4_tenant_scoped_service (ctx : ServiceContext) (db : Db) (i : String)
    (d : UserService.UserUpdateInput) (now : Nat)
    (hcross : ∀ r ∈ db, r.id = i → r.organizationId ≠ ctx.organizationId) :
    UserService.findById ctx db i = none ∧
    UserService.update ctx db i d = Except.error "User does not belong to your organization" ∧
    UserService.delete ctx db i now =
      Except.error "User does not belong to your organization" := by
  have hfind : db.find? (fun r => r.id == i && r.organizationId == ctx.organizationId)
      = none := by
    rw [List.find?_eq_none]
    intro x hx hpx
    simp only [Bool.and_eq_true, beq_iff_eq] at hpx
    exact hcross x hx hpx.1 hpx.2
  have hv : UserService.validateOwnership db i ctx.organizationId = false := by
    simp [UserService.validateOwnership, hfind]
  simp [UserService.findById, UserService.update, UserService.delete, hv]

/-- Witness for the amended claim C4 at a concrete input: a one-record table
owned by orgA, a context scoped to orgB. -/
theorem c4_tenant_scoped_service_witness :
    UserService.findById ⟨"caller", "orgB"⟩
        [⟨"u1", "alice@example.com", "orgA", none, "USER", none⟩] "u1" = none ∧
    UserService.update ⟨"caller", "orgB"⟩
        [⟨"u1", "alice@example.com", "orgA", none, "USER", none⟩] "u1" ⟨none, none⟩ =
      Except.error "User does not belong to your organization" ∧
    UserService.delete ⟨"caller", "orgB"⟩
        [⟨"u1", "alice@example.com", "orgA", none, "USER", none⟩] "u1" 0 =
      Except.error "User does not belong to your organization" :=
  c4_tenant_scoped_service ⟨"caller", "orgB"⟩
    [⟨"u1", "alice@example.com", "orgA", none, "USER", none⟩] "u1" ⟨none, none⟩ 0
    (by decide)

/-- Claim C9: when every permission a role holds for the requested entity and
action is own-, assigned- or member-scoped and its scope proof is absent or
unsatisfied, the evaluator denies even though a base entity:action permission
exists for the role. -/
theorem c9_scoped_requires_scope_proof (table : String → List Permission) (p : Principal)
    (perm : Permission) (ro : Option String) (facts : ScopeFacts) (q0 : Permission)
    (hq0 : q0 ∈ table p.role) (hent : q0.entity = perm.entity)
    (hact : q0.action = perm.action)
    (hscoped : ∀ q ∈ table p.role, q.entity = perm.entity → q.action = perm.action →
      (q.scope = PermScope.own ∨ q.scope = PermScope.assigned ∨
        q.scope = PermScope.member) ∧ scopeSatisfied p q.scope facts = false) :
    evaluatePermission table p perm ro facts = false := by
  unfold evaluatePermission
  cases horg : (match ro with
      | some o => p.role == "SUPER_ADMIN" || p.organizationId == o
      | none => true) with
  | false => simp [horg]
  | true =>
      have h1 : (table p.role).any (fun q =>
          q.entity == perm.entity && q.action == perm.action &&
            (q.scope == PermScope.unscoped || q.scope == PermScope.all)) = false := by
        apply Bool.eq_false_iff.mpr
        intro hany
        rw [List.any_eq_true] at hany
        obtain ⟨q, hq, hpq⟩ := hany
        simp only [Bool.and_eq_true, Bool.or_eq_true, beq_iff_eq] at hpq
        obtain ⟨⟨he, ha⟩, hsc⟩ := hpq
        have hown := (hscoped q hq he ha).1
        rcases hown with h | h | h <;> rcases hsc with h9 | h9 <;> rw [h] at h9 <;>
          cases h9
      have h2 : (table p.role).any (fun q =>
          q.entity == perm.entity && q.action == perm.action &&
            scopeSatisfied p q.scope facts) = false := by
        apply Bool.eq_false_iff.mpr
        intro hany
        rw [List.any_eq_true] at hany
        obtain ⟨q, hq, hpq⟩ := hany
        simp only [Bool.and_eq_true, beq_iff_eq] at hpq
        obtain ⟨⟨he, ha⟩, hsat⟩ := hpq
        have hbad := (hscoped q hq he ha).2
        rw [hbad] at hsat
        cases hsat
      simp [horg, h1, h2]

/-- Witness for claim C9 at a concrete input: USER holds only account:read:own
and the principal is a member of no account, so account:read is denied even
inside the principal's own organization. -/
theorem c9_scoped_requires_scope_proof_witness :
    evaluatePermission
      (fun r => if r == "USER" then [⟨"account", "read", PermScope.own⟩] else [])
      ⟨"u1", "orgA", "USER", []⟩ ⟨"account", "read", PermScope.own⟩ (some "orgA")
      ⟨some "acc3", none, false⟩ = false :=
  c9_scoped_requires_scope_proof
    (fun r => if r == "USER" then [⟨"account", "read", PermScope.own⟩] else [])
    ⟨"u1", "orgA", "USER", []⟩ ⟨"account", "read", PermScope.own⟩ (some "orgA")
    ⟨some "acc3", none, false⟩ ⟨"account", "read", PermScope.own⟩
    (by decide) (by decide) (by decide) (by decide)
